import Mathlib

/-!
Shallow embedding of `src/src/bucket_sim.ipynb` (a leaking-bucket ODE
simulation) and proofs about it.

Python floats are modelled as real numbers.  Python expressions that can
raise are modelled with `Except PyError`: `math.sqrt` raises
`ValueError: math domain error` on a negative argument, float division
raises `ZeroDivisionError` on a zero divisor, and list indexing raises
`IndexError` on an empty list.  The SciPy collaborator `solve_ivp` is
external to the repository; the driver `run_simulation` is modelled as a
function of that collaborator.
-/

/-- Errors a modelled Python expression can raise.  `domainError` stands for
the `ValueError: math domain error` raised by `math.sqrt` on a negative
argument. -/
inductive PyError where
  | domainError
  | zeroDivisionError
  | indexError
  deriving DecidableEq

/-- Gravitational acceleration, `GRAV : float = 9.8` in the source. -/
noncomputable def GRAV : ℝ := 9.8

/-- `math.sqrt`: raises a math-domain `ValueError` on a negative argument,
otherwise returns the square root. -/
noncomputable def pySqrt (x : ℝ) : Except PyError ℝ :=
  if x < 0 then .error .domainError else .ok (Real.sqrt x)

/-- Python float division: raises `ZeroDivisionError` when the divisor is
zero, otherwise divides. -/
noncomputable def pyDiv (x y : ℝ) : Except PyError ℝ :=
  if y = 0 then .error .zeroDivisionError else .ok (x / y)

/-- The `Bucket` dataclass: holds the cross-sectional area `A`. -/
structure Bucket where
  A : ℝ

/-- Constructing a `Bucket`.  The dataclass-generated initializer just
stores the field; it performs no validation and cannot raise, so it always
returns `Except.ok`. -/
noncomputable def Bucket.make (A : ℝ) : Except PyError Bucket :=
  .ok { A := A }

/-- The `BucketSystem` dataclass: a bucket (field spelled `backet` in the
source) together with the inflow function `flow_in`. -/
structure BucketSystem where
  backet : Bucket
  flow_in : ℝ → ℝ

/-- `BucketSystem.ode`: the source line
`return (self.flow_in(t) - sqrt(2 * GRAV * h)) / self.backet.A`.
The square root is evaluated first (it raises on `h < 0`), then the
division (it raises on `A = 0`). -/
noncomputable def BucketSystem.ode (self : BucketSystem) (t h : ℝ) :
    Except PyError ℝ := do
  let out ← pySqrt (2 * GRAV * h)
  pyDiv (self.flow_in t - out) self.backet.A

/-- Outflow rate from the spec: `Q_out(t) = sqrt(2 * g * h(t))`
(Torricelli's law). -/
noncomputable def Q_out (h : ℝ) : ℝ := Real.sqrt (2 * GRAV * h)

/-- Reference derivative from the spec:
`dh/dt = (Q_in(t) - Q_out(t)) / A`. -/
noncomputable def dh_dt_ref (Q_in : ℝ → ℝ) (A t h : ℝ) : ℝ :=
  (Q_in t - Q_out h) / A

/-- Arguments handed to the external IVP solver `solve_ivp`: the derivative
function `fun`, the time span, the initial state vector `y0` and the
maximal step size. -/
structure SolveIvpArgs where
  f : ℝ → List ℝ → Except PyError ℝ
  t_span : ℝ × ℝ
  y0 : List ℝ
  max_step : ℝ

/-- The solver's result object (`OdeResult`): success flag, status code,
message, sampled times, sampled state vectors and evaluation counts. -/
structure OdeResult where
  success : Bool
  status : ℤ
  message : String
  t : List ℝ
  y : List (List ℝ)
  nfev : ℕ
  njev : ℕ
  nlu : ℕ

/-- `run_simulation`: constructs the bucket (`A = 5.0`), the system with the
constant inflow `lambda t: 10.0`, the initial level `h0 = 0.0`, the time
span `(0, 20)`, and calls the external collaborator `solve_ivp` with the
derivative `lambda t, h: system.ode(t, h[0])` and `max_step=0.01`,
returning whatever the collaborator returns (or raises). -/
noncomputable def run_simulation
    (solve_ivp : SolveIvpArgs → Except PyError OdeResult) :
    Except PyError OdeResult :=
  let backet : Bucket := { A := 5.0 }
  let system : BucketSystem := { backet := backet, flow_in := fun _ => 10.0 }
  let h0 : ℝ := 0.0
  let t_span : ℝ × ℝ := (0, 20)
  solve_ivp
    { f := fun t h =>
        match h with
        | hd :: _ => system.ode t hd
        | [] => .error .indexError
      t_span := t_span
      y0 := [h0]
      max_step := 0.01 }

/-- The exact argument record `run_simulation` passes to the collaborator. -/
noncomputable def baseline_args : SolveIvpArgs :=
  { f := fun t h =>
      match h with
      | hd :: _ =>
          BucketSystem.ode { backet := { A := 5.0 }, flow_in := fun _ => 10.0 } t hd
      | [] => .error .indexError
    t_span := (0, 20)
    y0 := [0.0]
    max_step := 0.01 }

/-- The baseline system built inside `run_simulation`: area `5.0`, constant
inflow `10.0`. -/
noncomputable def baseline_system : BucketSystem :=
  { backet := { A := 5.0 }, flow_in := fun _ => 10.0 }

/-- A concrete failing solver report, used as a test vector. -/
noncomputable def failRes : OdeResult :=
  { success := false
    status := -1
    message := "Required step size is less than spacing between numbers."
    t := [0]
    y := [[0]]
    nfev := 20
    njev := 0
    nlu := 0 }

/-- A collaborator that reports the failing result `failRes`. -/
noncomputable def constFailSolver : SolveIvpArgs → Except PyError OdeResult :=
  fun _ => .ok failRes

/-- Basic reduction fact: `2 * GRAV * h` is negative exactly when `h` is. -/
theorem two_grav_mul_neg_iff (h : ℝ) : 2 * GRAV * h < 0 ↔ h < 0 := by
  unfold GRAV
  constructor <;> intro hh <;> nlinarith

/-- Evaluation of `pySqrt` on a non-negative argument. -/
theorem pySqrt_ok (x : ℝ) (hx : 0 ≤ x) : pySqrt x = .ok (Real.sqrt x) := by
  unfold pySqrt
  rw [if_neg (not_lt.mpr hx)]

/-- Evaluation of `pyDiv` with a non-zero divisor. -/
theorem pyDiv_ok (x y : ℝ) (hy : y ≠ 0) : pyDiv x y = .ok (x / y) := by
  unfold pyDiv
  rw [if_neg hy]

/-- Evaluation of `ode` on the valid domain. -/
theorem ode_eval (s : BucketSystem) (t h : ℝ) (hh : 0 ≤ h)
    (hA : s.backet.A ≠ 0) :
    s.ode t h =
      .ok ((s.flow_in t - Real.sqrt (2 * GRAV * h)) / s.backet.A) := by
  have hx : 0 ≤ 2 * GRAV * h := by unfold GRAV; nlinarith
  unfold BucketSystem.ode
  rw [pySqrt_ok _ hx]
  exact pyDiv_ok _ _ hA

/-- Claim C1: for every time `t`, level `h ≥ 0`, area `A > 0` and control
input, `ode(t, h)` returns exactly `(Q_in(t) - sqrt(2 * 9.8 * h)) / A`,
which is the spec's reference derivative `(Q_in(t) - Q_out(t)) / A` with
`Q_out = sqrt(2 * g * h)`. -/
theorem ode_matches_reference (s : BucketSystem) (t h : ℝ)
    (hh : 0 ≤ h) (hA : 0 < s.backet.A) :
    s.ode t h =
      Except.ok ((s.flow_in t - Real.sqrt (2 * 9.8 * h)) / s.backet.A) ∧
    (s.flow_in t - Real.sqrt (2 * 9.8 * h)) / s.backet.A =
      dh_dt_ref s.flow_in s.backet.A t h := by
  constructor
  · rw [ode_eval s t h hh (ne_of_gt hA)]
    norm_num [GRAV]
  · simp [dh_dt_ref, Q_out, GRAV]

/-- Witness for C1 at the concrete system `A = 5`, inflow `10`, `t = 3`,
`h = 0`. -/
theorem ode_matches_reference_witness :
    (0:ℝ) ≤ 0 ∧ (0:ℝ) < 5 ∧
    (BucketSystem.ode { backet := { A := 5 }, flow_in := fun _ => 10 } 3 0 =
        Except.ok ((10 - Real.sqrt (2 * 9.8 * 0)) / 5) ∧
      ((10:ℝ) - Real.sqrt (2 * 9.8 * 0)) / 5 =
        dh_dt_ref (fun _ => 10) 5 3 0) :=
  ⟨le_refl 0, by norm_num,
    ode_matches_reference { backet := { A := 5 }, flow_in := fun _ => 10 } 3 0
      (le_refl 0) (by norm_num)⟩

/-- Claim C3: evaluating `ode(t, h)` signals the math-domain error exactly
when `h < 0`; in particular for every `h < 0` it never returns a value, and
the core performs no clamping of `h` before taking the square root. -/
theorem ode_domain_error_iff (s : BucketSystem) (t h : ℝ) :
    s.ode t h = Except.error PyError.domainError ↔ h < 0 := by
  constructor
  · intro he
    by_contra hge
    push_neg at hge
    by_cases hA : s.backet.A = 0
    · unfold BucketSystem.ode at he
      rw [pySqrt_ok _ (by unfold GRAV; nlinarith)] at he
      have he2 : pyDiv (s.flow_in t - Real.sqrt (2 * GRAV * h)) s.backet.A =
          Except.error PyError.domainError := he
      unfold pyDiv at he2
      rw [if_pos hA] at he2
      simp at he2
    · rw [ode_eval s t h hge hA] at he
      exact Except.noConfusion he
  · intro hneg
    unfold BucketSystem.ode pySqrt
    rw [if_pos (show 2 * GRAV * h < 0 from (two_grav_mul_neg_iff h).mpr hneg)]
    rfl

/-- Claim C10: at the empty-tank boundary `h = 0` the outflow term is zero,
so `ode(t, 0) = Q_in(t) / A`, and with non-negative inflow that derivative
is non-negative. -/
theorem ode_at_empty_tank (s : BucketSystem) (t : ℝ)
    (hA : 0 < s.backet.A) :
    s.ode t 0 = Except.ok (s.flow_in t / s.backet.A) ∧
    (0 ≤ s.flow_in t → 0 ≤ s.flow_in t / s.backet.A) := by
  constructor
  · rw [ode_eval s t 0 le_rfl (ne_of_gt hA)]
    simp
  · intro hq
    exact div_nonneg hq (le_of_lt hA)

/-- Witness for C10 at the baseline system `A = 5`, inflow `10`, `t = 0`. -/
theorem ode_at_empty_tank_witness :
    (0:ℝ) < 5 ∧
    (BucketSystem.ode { backet := { A := 5 }, flow_in := fun _ => 10 } 0 0 =
        Except.ok (10 / 5) ∧
      ((0:ℝ) ≤ 10 → (0:ℝ) ≤ 10 / 5)) :=
  ⟨by norm_num,
    ode_at_empty_tank { backet := { A := 5 }, flow_in := fun _ => 10 } 0
      (by norm_num)⟩

/-- Claim C7: for every constant inflow `q0 > 0`, area `A > 0` and time `t`,
the derivative vanishes at the equilibrium level `h_eq = q0 ^ 2 / (2 * g)`:
`ode(t, h_eq) = 0`. -/
theorem ode_equilibrium (q0 A t : ℝ) (hq : 0 < q0) (hA : 0 < A) :
    BucketSystem.ode { backet := { A := A }, flow_in := fun _ => q0 } t
      (q0 ^ 2 / (2 * GRAV)) = Except.ok 0 := by
  have hheq : 0 ≤ q0 ^ 2 / (2 * GRAV) := by
    unfold GRAV
    positivity
  rw [ode_eval _ t _ hheq (ne_of_gt hA)]
  have harg : 2 * GRAV * (q0 ^ 2 / (2 * GRAV)) = q0 ^ 2 := by
    unfold GRAV
    field_simp
  rw [harg, Real.sqrt_sq (le_of_lt hq)]
  simp

/-- Witness for C7 at `q0 = 10`, `A = 5`, `t = 0` (the spec's concrete
scenario, equilibrium `100 / 19.6 ≈ 5.102`). -/
theorem ode_equilibrium_witness :
    (0:ℝ) < 10 ∧ (0:ℝ) < 5 ∧
    BucketSystem.ode { backet := { A := 5 }, flow_in := fun _ => 10 } 0
      ((10:ℝ) ^ 2 / (2 * GRAV)) = Except.ok 0 :=
  ⟨by norm_num, by norm_num, ode_equilibrium 10 5 0 (by norm_num) (by norm_num)⟩

/-- Claim C9: for a fixed time, area `A > 0` and control input, `ode(t, ·)`
is strictly decreasing on non-negative levels: `0 ≤ h1 < h2` implies
`ode(t, h2) < ode(t, h1)` (comparing the returned values). -/
theorem ode_strict_anti (s : BucketSystem) (t h1 h2 : ℝ)
    (hA : 0 < s.backet.A) (h1n : 0 ≤ h1) (hlt : h1 < h2) :
    ∃ d1 d2, s.ode t h1 = Except.ok d1 ∧ s.ode t h2 = Except.ok d2 ∧
      d2 < d1 := by
  have h2n : 0 ≤ h2 := le_trans h1n (le_of_lt hlt)
  refine ⟨_, _, ode_eval s t h1 h1n (ne_of_gt hA),
    ode_eval s t h2 h2n (ne_of_gt hA), ?_⟩
  rw [div_lt_div_iff_of_pos_right hA, sub_lt_sub_iff_left]
  apply Real.sqrt_lt_sqrt
  · unfold GRAV
    nlinarith
  · unfold GRAV
    nlinarith

/-- Witness for C9 at `A = 1`, inflow `0`, `t = 0`, `h1 = 0`, `h2 = 1`. -/
theorem ode_strict_anti_witness :
    (0:ℝ) < 1 ∧ (0:ℝ) ≤ 0 ∧ (0:ℝ) < 1 ∧
    (∃ d1 d2,
      BucketSystem.ode { backet := { A := 1 }, flow_in := fun _ => 0 } 0 0 =
        Except.ok d1 ∧
      BucketSystem.ode { backet := { A := 1 }, flow_in := fun _ => 0 } 0 1 =
        Except.ok d2 ∧ d2 < d1) :=
  ⟨by norm_num, le_refl 0, by norm_num,
    ode_strict_anti { backet := { A := 1 }, flow_in := fun _ => 0 } 0 0 1
      (by norm_num) (le_refl 0) (by norm_num)⟩

/-- Claim C6: `ode` is deterministic and stateless — its output depends only
on `(t, h)`, the area and the control-input function: two systems with the
same area and pointwise-equal inflow give the same result at every
`(t, h)`, and repeated evaluation trivially agrees. -/
theorem ode_deterministic (s1 s2 : BucketSystem) (t h : ℝ)
    (hA : s1.backet.A = s2.backet.A)
    (hf : ∀ u, s1.flow_in u = s2.flow_in u) :
    s1.ode t h = s2.ode t h := by
  unfold BucketSystem.ode
  simp only [hA, hf t]

/-- Witness for C6: two syntactically different systems with equal area and
extensionally equal inflow agree at `(t, h) = (0, 1)`. -/
theorem ode_deterministic_witness :
    BucketSystem.ode { backet := { A := 2 }, flow_in := fun u => u + 1 } 0 1 =
    BucketSystem.ode { backet := { A := 2 }, flow_in := fun u => 1 + u } 0 1 :=
  ode_deterministic
    { backet := { A := 2 }, flow_in := fun u => u + 1 }
    { backet := { A := 2 }, flow_in := fun u => 1 + u }
    0 1 rfl (fun u => add_comm u 1)

/-- A concrete successful solver report, shaped like the notebook's recorded
output, used as a test vector. -/
noncomputable def okRes : OdeResult :=
  { success := true
    status := 0
    message := "The solver successfully reached the end of the integration interval."
    t := [0, 20]
    y := [[0, 5.027]]
    nfev := 12020
    njev := 0
    nlu := 0 }

/-- A collaborator that reports the successful result `okRes`. -/
noncomputable def constOkSolver : SolveIvpArgs → Except PyError OdeResult :=
  fun _ => .ok okRes

/-- Claim C5: `run_simulation` invokes the external IVP solver with exactly
the baseline scenario — area `5.0`, constant inflow `10.0`, initial level
`[0.0]`, time span `(0, 20)`, `max_step = 0.01` — and the derivative
function passed to the solver is the system's `ode` applied to the first
state component. -/
theorem run_simulation_invokes_baseline
    (solve_ivp : SolveIvpArgs → Except PyError OdeResult) :
    run_simulation solve_ivp = solve_ivp baseline_args ∧
    baseline_args.t_span = (0, 20) ∧
    baseline_args.y0 = [0.0] ∧
    baseline_args.max_step = 0.01 ∧
    baseline_system.backet.A = 5.0 ∧
    (∀ u, baseline_system.flow_in u = 10.0) ∧
    (∀ t hd rest, baseline_args.f t (hd :: rest) = baseline_system.ode t hd) ∧
    (∀ t, baseline_args.f t [] = Except.error PyError.indexError) :=
  ⟨rfl, rfl, rfl, rfl, rfl, fun _ => rfl, fun _ _ _ => rfl, fun _ => rfl⟩

/-- Claim C8: `run_simulation` returns the collaborator's report unchanged:
whenever the collaborator returns a result object `r` — in particular one
with `success = false` and a non-zero status, as after a solver failure or
a derivative-function error surfaced through the collaborator's
failure-reporting path — the driver returns exactly `r` inside the normal
return path instead of raising. -/
theorem run_simulation_mirrors_solver
    (solve_ivp : SolveIvpArgs → Except PyError OdeResult) (r : OdeResult)
    (hr : solve_ivp baseline_args = Except.ok r) :
    run_simulation solve_ivp = Except.ok r := by
  have hdel : run_simulation solve_ivp = solve_ivp baseline_args := rfl
  rw [hdel, hr]

/-- Witness for C8: a collaborator reporting the failing result `failRes`
(`success = false`, `status = -1`) has that very report handed back by
`run_simulation`. -/
theorem run_simulation_mirrors_solver_witness :
    constFailSolver baseline_args = Except.ok failRes ∧
    run_simulation constFailSolver = Except.ok failRes ∧
    failRes.success = false :=
  ⟨rfl, run_simulation_mirrors_solver constFailSolver failRes rfl, rfl⟩

/-- Counterexample to claim C2: constructing a `Bucket` with `A = 0` or
`A = -1` does not signal any error — the dataclass initializer returns a
`Bucket` carrying the invalid area, so no `ConfigurationError` is raised at
construction time. -/
theorem bucket_make_accepts_nonpositive_area :
    Bucket.make 0 = Except.ok { A := 0 } ∧
    Bucket.make (-1) = Except.ok { A := -1 } :=
  ⟨rfl, rfl⟩

/-- Amended C2: constructing a `Bucket` performs no validation at all — for
every area `a`, including every `a ≤ 0`, construction succeeds and returns
a `Bucket` with exactly that area. -/
theorem bucket_make_no_validation (a : ℝ) :
    Bucket.make a = Except.ok { A := a } :=
  rfl

/-- Counterexample to claim C4: `run_simulation` signals no
`ConfigurationError` whatsoever — it takes no configuration arguments, and
with a collaborator in place it unconditionally starts integration and
returns the collaborator's report (here `okRes`), so no validation happens
before the integration attempt. -/
theorem run_simulation_signals_no_config_error :
    run_simulation constOkSolver = Except.ok okRes :=
  rfl

/-- Amended C4: `run_simulation` accepts no configuration; its time span,
initial level and max step are hard-coded to the valid values `(0, 20)`,
`[0.0]` and `0.01`, it performs no validation, and it unconditionally
delegates to the collaborator. -/
theorem run_simulation_no_validation
    (solve_ivp : SolveIvpArgs → Except PyError OdeResult) :
    run_simulation solve_ivp = solve_ivp baseline_args ∧
    baseline_args.t_span.1 < baseline_args.t_span.2 ∧
    (0:ℝ) ≤ 0 ∧ (0:ℝ) < baseline_args.max_step :=
  ⟨rfl, by norm_num [baseline_args], le_refl 0, by norm_num [baseline_args]⟩
